import Mathlib

/-!
Verification of the minimal-python-app repository (src/k8s_utils.py,
src/webtest.py, src/main.py) against its specification.

The process environment is modelled as an association list of
(name, value) pairs; `os.environ.get` becomes `osGet`.  Exceptions from
the kubernetes library are modelled by a `K8sWorld` record of oracles:
boolean flags for the constructor-time operations that may raise
(`config.load_incluster_config`, `config.load_kube_config`,
`client.CoreV1Api()`), and `Except`-valued oracles for the per-request
API calls (`read_namespaced_pod`, `VersionApi().get_code`).  Handler
results are JSON values; each cluster-client method also reports the
list of API invocations it performed, so that "performs no network
call" is a statement about the embedding.
-/

/-- The process environment: `os.environ` as an association list. -/
abbrev Env : Type := List (String × String)

/-- `os.environ.get name` (no default): first binding of `name`, if any. -/
def osGet (env : Env) (name : String) : Option String :=
  (List.find? (fun kv => kv.1 == name) env).map (fun kv => kv.2)

/-- `k8s_utils.get_env_var(name, default)`: `os.environ.get(name, default)`. -/
def get_env_var (env : Env) (name : String) (dflt : String) : String :=
  (osGet env name).getD dflt

/-- Python `str.lower()` (the keys involved are ASCII).  Defined by
structural recursion over the characters so that concrete instances
evaluate. -/
def pyLower (s : String) : String :=
  String.mk (List.map Char.toLower s.toList)

/-- JSON values, as produced by the handlers (dicts serialized by bottle). -/
inductive JVal where
  | str : String → JVal
  | bool : Bool → JVal
  | null : JVal
  | obj : List (String × JVal) → JVal

/-- A Python value that is a string or `None`, rendered to JSON. -/
def JVal.ofOptStr : Option String → JVal
  | some s => JVal.str s
  | none => JVal.null

/-- The fields of the kubernetes `V1Pod` object that `get_pod_info` reads:
`pod.metadata.name`, `pod.metadata.namespace`, `pod.spec.node_name`,
`pod.status.pod_ip`, and `pod.metadata.creation_timestamp` already rendered
through `strftime("%Y-%m-%d %H:%M:%S")` (absent when the timestamp is `None`).
`ns` stands for the `namespace` field (a reserved word here). -/
structure PodData where
  name : String
  ns : String
  node_name : Option String
  pod_ip : Option String
  creation_timestamp : Option String

/-- The fields of the kubernetes version object that `get_cluster_info`
reads: `git_version`, `platform`, `go_version`. -/
structure VersionInfo where
  git_version : String
  platform : String
  go_version : String

/-- Oracles for everything the kubernetes library does.  Boolean fields
record whether the corresponding constructor-time call succeeds (rather
than raising); the `Except` fields give the outcome of the per-request
API calls, `.error` being a raised exception's message (`str(e)`). -/
structure K8sWorld where
  tokenFileExists : Bool
  load_incluster_config_ok : Bool
  load_kube_config_ok : Bool
  coreV1Api_ok : Bool
  read_namespaced_pod : String → String → Except String PodData
  get_code : Except String VersionInfo

/-- `K8sClient` state after construction (`k8s_utils.py`).  `core_api` is
represented by the world's `read_namespaced_pod` oracle, so only the two
flags are carried. -/
structure K8sClient where
  in_cluster : Bool
  running_in_k8s : Bool

/-- `K8sClient._is_in_cluster`: `os.path.exists` of the service-account
token path, an oracle of the world. -/
def K8sClient.is_in_cluster (w : K8sWorld) : Bool :=
  w.tokenFileExists

/-- `K8sClient.__init__` together with `_initialize_client` (which it
calls immediately): `in_cluster := _is_in_cluster()`; then inside
`try`, load in-cluster config when in cluster else local kubeconfig,
construct `CoreV1Api`, and set `running_in_k8s := True`; any exception
is caught and sets `running_in_k8s := False`.  Total: never raises. -/
def K8sClient.init (w : K8sWorld) : K8sClient :=
  let in_cluster := K8sClient.is_in_cluster w
  let load_ok := if in_cluster then w.load_incluster_config_ok else w.load_kube_config_ok
  { in_cluster := in_cluster
    running_in_k8s := load_ok && w.coreV1Api_ok }

/-- Result of a `K8sClient` method call: the object after the call
(`self`; the methods assign no attribute, so it is returned unchanged),
the returned dict, and the kubernetes API invocations performed —
`pod_lookups` lists each `read_namespaced_pod(name, namespace)` argument
pair, `version_queries` counts the `VersionApi().get_code()` calls. -/
structure K8sCallResult where
  self : K8sClient
  resp : JVal
  pod_lookups : List (String × String)
  version_queries : Nat

/-- `K8sClient.get_pod_info` (`k8s_utils.py` lines 40-67). -/
def K8sClient.get_pod_info (c : K8sClient) (w : K8sWorld) (env : Env) : K8sCallResult :=
  if !c.running_in_k8s then
    { self := c, resp := JVal.obj [("error", JVal.str "Not running in Kubernetes")]
      pod_lookups := [], version_queries := 0 }
  else
    let ns := get_env_var env "POD_NAMESPACE" "default"
    let pod_name := get_env_var env "POD_NAME" "unknown"
    if pod_name != "unknown" then
      match w.read_namespaced_pod pod_name ns with
      | Except.ok pod =>
          { self := c
            resp := JVal.obj
              [("pod_name", JVal.str pod.name),
               ("namespace", JVal.str pod.ns),
               ("node", JVal.ofOptStr pod.node_name),
               ("pod_ip", JVal.ofOptStr pod.pod_ip),
               ("created", JVal.ofOptStr pod.creation_timestamp)]
            pod_lookups := [(pod_name, ns)], version_queries := 0 }
      | Except.error e =>
          { self := c, resp := JVal.obj [("error", JVal.str e)]
            pod_lookups := [(pod_name, ns)], version_queries := 0 }
    else
      { self := c
        resp := JVal.obj
          [("pod_name", JVal.str pod_name),
           ("namespace", JVal.str ns),
           ("status", JVal.str "Limited information available")]
        pod_lookups := [], version_queries := 0 }

/-- `K8sClient.get_cluster_info` (`k8s_utils.py` lines 69-83). -/
def K8sClient.get_cluster_info (c : K8sClient) (w : K8sWorld) : K8sCallResult :=
  if !c.running_in_k8s then
    { self := c, resp := JVal.obj [("error", JVal.str "Not running in Kubernetes")]
      pod_lookups := [], version_queries := 0 }
  else
    match w.get_code with
    | Except.ok v =>
        { self := c
          resp := JVal.obj
            [("kubernetes_version", JVal.str v.git_version),
             ("platform", JVal.str v.platform),
             ("go_version", JVal.str v.go_version)]
          pod_lookups := [], version_queries := 1 }
    | Except.error e =>
        { self := c, resp := JVal.obj [("error", JVal.str e)]
          pod_lookups := [], version_queries := 1 }

/-- The runtime-introspection strings read by the `/api/info` handler:
`sys.version`, `platform.platform()`, `platform.python_implementation()`,
`bottle.__version__`. -/
structure RuntimeInfo where
  python_version : String
  platform : String
  implementation : String
  bottle_version : String

/-- `WebTest` state after `__init__` (`webtest.py` lines 23-34): host and
port from the constructor arguments, `app_name`/`environment` read from
the environment at construction time, and the `K8sClient` constructed
once.  The `Bottle()` app and route table carry no data. -/
structure WebTest where
  host : String
  port : Int
  app_name : String
  environment : String
  k8s_client : K8sClient

/-- `WebTest.__init__`: `cenv` is the process environment at construction
time. -/
def WebTest.init (cenv : Env) (w : K8sWorld) (host : String) (port : Int) : WebTest :=
  { host := host, port := port
    app_name := get_env_var cenv "APP_NAME" "webtest"
    environment := get_env_var cenv "ENVIRONMENT" "development"
    k8s_client := K8sClient.init w }

/-- A handler's response body: a dict serialized to JSON, or an HTML page. -/
inductive Body where
  | json : JVal → Body
  | html : String → Body

/-- An HTTP response: bottle's default status for a handler that returns
normally is 200; `content_type` is what the handler assigns to
`response.content_type`. -/
structure Response where
  status : Nat
  content_type : String
  body : Body

/-- The entry list of a JSON-object response (empty for HTML bodies). -/
def Response.jsonEntries : Response → List (String × JVal)
  | { body := Body.json (JVal.obj l), .. } => l
  | _ => []

/-- The f-string returned by `WebTest.index` (`webtest.py` lines 45-113),
with `\x7b`/`\x7d` the literal braces written `{{`/`}}` in the source and
the two interpolation points `{self.app_name}`, `{self.environment}` as
arguments. -/
def indexHtml (app_name environment : String) : String :=
  "
        <!DOCTYPE html>
        <html>
        <head>
            <title>" ++ app_name ++ " - Secure Python Container</title>
            <style>
                body \x7b
                    font-family: Arial, sans-serif;
                    max-width: 800px;
                    margin: 0 auto;
                    padding: 20px;
                    line-height: 1.6;
                \x7d
                h1 \x7b
                    color: #2c3e50;
                \x7d
                .endpoints \x7b
                    background-color: #f8f9fa;
                    padding: 15px;
                    border-radius: 5px;
                    margin-top: 20px;
                \x7d
                .endpoint \x7b
                    margin-bottom: 10px;
                \x7d
                .environment \x7b
                    display: inline-block;
                    padding: 4px 8px;
                    border-radius: 4px;
                    background-color: #e4e7eb;
                    font-size: 14px;
                    font-weight: bold;
                \x7d
            </style>
        </head>
        <body>
            <h1>" ++ app_name ++ " - Secure Python Container</h1>
            <p>
                This is a simple web application running in a secure, minimal Python container.
                <span class=\"environment\">" ++ environment ++ "</span>
            </p>

            <div class=\"endpoints\">
                <h2>Available Endpoints:</h2>
                <div class=\"endpoint\">
                    <strong>GET /</strong> - This page
                </div>
                <div class=\"endpoint\">
                    <strong>GET /api/status</strong> - Server status
                </div>
                <div class=\"endpoint\">
                    <strong>GET /api/info</strong> - Container information
                </div>
                <div class=\"endpoint\">
                    <strong>GET /api/kubernetes</strong> - Kubernetes information (if running in K8s)
                </div>
                <div class=\"endpoint\">
                    <strong>GET /healthz</strong> - Health check endpoint (for Kubernetes liveness probe)
                </div>
                <div class=\"endpoint\">
                    <strong>GET /readyz</strong> - Readiness check endpoint (for Kubernetes readiness probe)
                </div>
            </div>
        </body>
        </html>
        "

/-- `WebTest.index`: the `/` handler.  `reqEnv` is the process environment
at request time; this handler reads only construction-time state. -/
def WebTest.index (wt : WebTest) (reqEnv : Env) : Response :=
  { status := 200, content_type := "text/html"
    body := Body.html (indexHtml wt.app_name wt.environment) }

/-- `WebTest.status`: the `/api/status` handler. -/
def WebTest.status (wt : WebTest) (reqEnv : Env) : Response :=
  { status := 200, content_type := "application/json"
    body := Body.json (JVal.obj
      [("status", JVal.str "running"),
       ("service", JVal.str wt.app_name),
       ("environment", JVal.str wt.environment)]) }

/-- The tuple of sensitive keys in `WebTest.info`'s `env_variables`
comprehension: membership test on `key.lower()` (exact match). -/
def sensitiveInfoKeys : List String :=
  ["path", "secret", "token", "password", "key", "cert"]

/-- The `env_variables` dict comprehension of `WebTest.info`
(`webtest.py` lines 136-139): keep `(key, value)` of `os.environ.items()`
unless `key.lower()` is one of the six sensitive keys. -/
def infoEnvVariables (env : Env) : Env :=
  List.filter (fun kv => !(sensitiveInfoKeys.contains (pyLower kv.1))) env

/-- `WebTest.info`: the `/api/info` handler (`webtest.py` lines 124-140). -/
def WebTest.info (wt : WebTest) (reqEnv : Env) (rt : RuntimeInfo) : Response :=
  { status := 200, content_type := "application/json"
    body := Body.json (JVal.obj
      [("python_version", JVal.str rt.python_version),
       ("platform", JVal.str rt.platform),
       ("implementation", JVal.str rt.implementation),
       ("bottle_version", JVal.str rt.bottle_version),
       ("app_name", JVal.str wt.app_name),
       ("environment", JVal.str wt.environment),
       ("env_variables", JVal.obj
         (List.map (fun kv => (kv.1, JVal.str kv.2)) (infoEnvVariables reqEnv)))]) }

/-- `WebTest.kubernetes_info`: the `/api/kubernetes` handler
(`webtest.py` lines 142-156): start from
`{running_in_kubernetes: flag}` and, when the flag is true,
`result.update` with `pod_info` and `cluster_info`. -/
def WebTest.kubernetes_info (wt : WebTest) (w : K8sWorld) (reqEnv : Env) : Response :=
  let result := [("running_in_kubernetes", JVal.bool wt.k8s_client.running_in_k8s)]
  let result :=
    if wt.k8s_client.running_in_k8s then
      result ++
        [("pod_info", (wt.k8s_client.get_pod_info w reqEnv).resp),
         ("cluster_info", (wt.k8s_client.get_cluster_info w).resp)]
    else result
  { status := 200, content_type := "application/json"
    body := Body.json (JVal.obj result) }

/-- `WebTest.health_check`: the `/healthz` handler. -/
def WebTest.health_check (wt : WebTest) (reqEnv : Env) : Response :=
  { status := 200, content_type := "application/json"
    body := Body.json (JVal.obj [("status", JVal.str "healthy")]) }

/-- `WebTest.readiness_check`: the `/readyz` handler. -/
def WebTest.readiness_check (wt : WebTest) (reqEnv : Env) : Response :=
  { status := 200, content_type := "application/json"
    body := Body.json (JVal.obj [("status", JVal.str "ready")]) }

/-- The sensitive words of the `env_vars` redaction in `main`
(`main.py` lines 46-52): substring test on `key.lower()`. -/
def sensitiveLogWords : List String :=
  ["secret", "password", "token", "key", "cert"]

/-- Python's `needle in hay` on lists of characters: `needle` occurs as a
contiguous run of `hay`. -/
def listContainsSub (hay needle : List Char) : Bool :=
  match hay with
  | [] => needle.isEmpty
  | c :: t => List.isPrefixOf needle (c :: t) || listContainsSub t needle

/-- Python's `needle in hay` on strings. -/
def strContainsSub (hay needle : String) : Bool :=
  listContainsSub hay.toList needle.toList

/-- The `env_vars` dict comprehension in `main` (`main.py` lines 46-52):
keep `(key, value)` of `os.environ.items()` unless any sensitive word is
a substring of `key.lower()`.  This is the snapshot logged at startup. -/
def main_env_vars (env : Env) : Env :=
  List.filter
    (fun kv => !(sensitiveLogWords.any (fun s => strContainsSub (pyLower kv.1) s))) env

/-- Value of an unsigned decimal digit run (underscores already removed). -/
def natOfDigits (l : List Char) : Nat :=
  List.foldl (fun acc c => 10 * acc + (c.toNat - Char.toNat '0')) 0 l

/-- Digit-run tail of a Python `int()` literal: digits with single
underscores allowed only between digits. -/
def pyIntTail : List Char → Bool
  | [] => true
  | ['_'] => false
  | '_' :: c :: rest => c.isDigit && pyIntTail rest
  | c :: rest => c.isDigit && pyIntTail rest

/-- A nonempty digit run (Python underscore rules), starting with a digit. -/
def pyIntDigits : List Char → Bool
  | [] => false
  | c :: rest => c.isDigit && pyIntTail rest

/-- Optional leading sign of a Python `int()` literal. -/
def stripSign : List Char → Int × List Char
  | '+' :: r => (1, r)
  | '-' :: r => (-1, r)
  | r => (1, r)

/-- Python's whitespace strip at both ends of a character list. -/
def pyStrip (l : List Char) : List Char :=
  (((l.dropWhile Char.isWhitespace).reverse).dropWhile Char.isWhitespace).reverse

/-- Python `int(s)` for a string argument: strip surrounding whitespace,
optional sign, then a digit run; `none` models a raised `ValueError`. -/
def pyInt (s : String) : Option Int :=
  let p := stripSign (pyStrip s.toList)
  if pyIntDigits p.2 then
    some (p.1 * (natOfDigits (List.filter (fun c => c != '_') p.2) : Int))
  else none

/-- `port = int(get_env_var('PORT', 8080))` in `main` (`main.py` line 24):
when `PORT` is unset the default is already the integer 8080 and
`int(8080)` cannot fail; when set, `int` parses the string. -/
def mainPort (env : Env) : Option Int :=
  match osGet env "PORT" with
  | none => some 8080
  | some s => pyInt s

/-- Oracles for `main`'s fallible steps: whether `import bottle` and
`import kubernetes` succeed, the kubernetes world for the `WebTest`
construction, and whether `web_app.run()` (the bottle server start)
succeeds. -/
structure MainWorld where
  bottle_import_ok : Bool
  kubernetes_import_ok : Bool
  k8s : K8sWorld
  server_start_ok : Bool

/-- How a call to `main()` ends. `valueError` is the `ValueError` raised
by `int()` propagating out of `main` uncaught; `exitCode n` is a
`sys.exit(n)`; `serverRan` means the server was started. -/
inductive MainOutcome where
  | valueError : MainOutcome
  | exitCode : Nat → MainOutcome
  | serverRan : MainOutcome
deriving DecidableEq

/-- `main` (`main.py` lines 20-61).  The `int` conversion of `PORT` is
the first fallible step and sits outside every `try`; a failed
`import bottle` logs and exits 1; a failed `import kubernetes` only logs
a warning; the redacted `env_vars` snapshot (`main_env_vars`) is logged;
then the `try` around `WebTest(...)`/`web_app.run()` logs and exits 1 on
any exception (`K8sClient.init` inside the constructor never raises, so
`server_start_ok` covers the whole block).  Named `main_entry` because
Lean reserves the name `main` for executables. -/
def main_entry (env : Env) (w : MainWorld) : MainOutcome :=
  match mainPort env with
  | none => MainOutcome.valueError
  | some _port =>
    if !w.bottle_import_ok then MainOutcome.exitCode 1
    else if w.server_start_ok then MainOutcome.serverRan
    else MainOutcome.exitCode 1

/-- A world in which every kubernetes operation fails (no token file, both
config loaders raise, API-client construction raises, both API calls
raise). -/
def wFail : K8sWorld :=
  { tokenFileExists := false
    load_incluster_config_ok := false
    load_kube_config_ok := false
    coreV1Api_ok := false
    read_namespaced_pod := fun _ _ => Except.error "boom"
    get_code := Except.error "boom" }

/-- A world in which every kubernetes operation succeeds. -/
def wOk : K8sWorld :=
  { tokenFileExists := true
    load_incluster_config_ok := true
    load_kube_config_ok := true
    coreV1Api_ok := true
    read_namespaced_pod := fun n ns =>
      Except.ok { name := n, ns := ns, node_name := some "node-1"
                  pod_ip := some "10.0.0.1"
                  creation_timestamp := some "2024-01-01 00:00:00" }
    get_code := Except.ok { git_version := "v1.30.0", platform := "linux/amd64"
                            go_version := "go1.22.1" } }

/-- `wOk` except the cluster version query raises. -/
def wOkBadVersion : K8sWorld :=
  { wOk with get_code := Except.error "boom" }

/-- Concrete runtime-introspection strings for concrete evaluations. -/
def rt0 : RuntimeInfo :=
  { python_version := "3.12.0", platform := "Linux-x86_64"
    implementation := "CPython", bottle_version := "0.12.25" }

/-- A concrete `MainWorld` in which imports and server start succeed. -/
def mw0 : MainWorld :=
  { bottle_import_ok := true, kubernetes_import_ok := true
    k8s := wFail, server_start_ok := true }

/-- C1: every request to `/healthz` returns exactly
`{status: "healthy"}` and every request to `/readyz` returns exactly
`{status: "ready"}`, with JSON content type and success status, for
every `WebTest` state — hence for every cluster-client state, including
a client whose construction failed. -/
theorem healthz_readyz_constant (wt : WebTest) (reqEnv : Env) :
    WebTest.health_check wt reqEnv =
      { status := 200, content_type := "application/json"
        body := Body.json (JVal.obj [("status", JVal.str "healthy")]) } ∧
    WebTest.readiness_check wt reqEnv =
      { status := 200, content_type := "application/json"
        body := Body.json (JVal.obj [("status", JVal.str "ready")]) } :=
  ⟨rfl, rfl⟩

/-- C2: `K8sClient` construction is a total function of the world (no
exception reaches the caller); `running_in_k8s` is true exactly when the
selected credential loader and the API-client construction both succeed
(so any failure yields `false`); and neither `get_pod_info` nor
`get_cluster_info` modifies the constructed object, so the flag is
assigned exactly once. -/
theorem k8s_client_flag_set_once (w : K8sWorld) (env : Env) (c : K8sClient) :
    (K8sClient.init w).running_in_k8s =
      ((if w.tokenFileExists then w.load_incluster_config_ok
        else w.load_kube_config_ok) && w.coreV1Api_ok) ∧
    (K8sClient.get_pod_info c w env).self = c ∧
    (K8sClient.get_cluster_info c w).self = c := by
  refine ⟨rfl, ?_, ?_⟩
  · unfold K8sClient.get_pod_info
    repeat' (first | split | dsimp only)
  · unfold K8sClient.get_cluster_info
    repeat' (first | split | dsimp only)

/-- C3: the `/api/kubernetes` response always contains
`running_in_kubernetes` equal to the client's flag; when the flag is
false the response object is exactly that one entry (so no `pod_info`
or `cluster_info` key); when the flag is true the response additionally
contains `pod_info` (the `get_pod_info` result) and `cluster_info` (the
`get_cluster_info` result). -/
theorem kubernetes_info_shape (wt : WebTest) (w : K8sWorld) (reqEnv : Env) :
    ("running_in_kubernetes", JVal.bool wt.k8s_client.running_in_k8s)
      ∈ (WebTest.kubernetes_info wt w reqEnv).jsonEntries ∧
    (wt.k8s_client.running_in_k8s = false →
      (WebTest.kubernetes_info wt w reqEnv).jsonEntries =
        [("running_in_kubernetes", JVal.bool false)]) ∧
    (wt.k8s_client.running_in_k8s = true →
      (WebTest.kubernetes_info wt w reqEnv).jsonEntries =
        [("running_in_kubernetes", JVal.bool true),
         ("pod_info", (wt.k8s_client.get_pod_info w reqEnv).resp),
         ("cluster_info", (wt.k8s_client.get_cluster_info w).resp)]) := by
  cases h : wt.k8s_client.running_in_k8s <;>
    simp [WebTest.kubernetes_info, Response.jsonEntries, h]

/-- Witness for C3 at concrete inputs: a client whose construction
failed yields exactly the singleton response object. -/
theorem kubernetes_info_shape_witness :
    (WebTest.kubernetes_info (WebTest.init [] wFail "0.0.0.0" 8080) wFail []).jsonEntries =
      [("running_in_kubernetes", JVal.bool false)] :=
  (kubernetes_info_shape (WebTest.init [] wFail "0.0.0.0" 8080) wFail []).2.1 rfl

/-- C4: `get_cluster_info` on a disabled client returns exactly
`{error: "Not running in Kubernetes"}` with zero version queries (no
network call); on an enabled client it performs exactly one version
query, and when that query raises it returns `{error: message}` instead
of propagating. -/
theorem get_cluster_info_disabled_enabled (c : K8sClient) (w : K8sWorld) :
    (c.running_in_k8s = false →
      K8sClient.get_cluster_info c w =
        { self := c
          resp := JVal.obj [("error", JVal.str "Not running in Kubernetes")]
          pod_lookups := [], version_queries := 0 }) ∧
    (c.running_in_k8s = true →
      (K8sClient.get_cluster_info c w).version_queries = 1 ∧
      ∀ e, w.get_code = Except.error e →
        (K8sClient.get_cluster_info c w).resp = JVal.obj [("error", JVal.str e)]) := by
  constructor
  · intro h
    simp [K8sClient.get_cluster_info, h]
  · intro h
    constructor
    · cases hg : w.get_code <;> simp [K8sClient.get_cluster_info, h, hg]
    · intro e hg
      simp [K8sClient.get_cluster_info, h, hg]

/-- Witness for C4 at concrete inputs: the disabled case on a
failed-construction client, and the enabled case with a raising version
query. -/
theorem get_cluster_info_disabled_enabled_witness :
    K8sClient.get_cluster_info (K8sClient.init wFail) wFail =
      { self := K8sClient.init wFail
        resp := JVal.obj [("error", JVal.str "Not running in Kubernetes")]
        pod_lookups := [], version_queries := 0 } ∧
    (K8sClient.get_cluster_info (K8sClient.init wOkBadVersion) wOkBadVersion).resp =
      JVal.obj [("error", JVal.str "boom")] :=
  ⟨(get_cluster_info_disabled_enabled (K8sClient.init wFail) wFail).1 rfl,
   ((get_cluster_info_disabled_enabled (K8sClient.init wOkBadVersion) wOkBadVersion).2
      rfl).2 "boom" rfl⟩

/-- C5: on an enabled client, when `POD_NAME` is unset or set to
`"unknown"`, `get_pod_info` returns exactly the reduced payload —
`pod_name: "unknown"`, the namespace from `POD_NAMESPACE` (default
`"default"`), and the limited-information marker — with no pod lookup;
when `POD_NAME` is any other value, exactly one lookup is performed,
with that name and that namespace. -/
theorem get_pod_info_unknown_reduced (c : K8sClient) (w : K8sWorld) (env : Env)
    (hrun : c.running_in_k8s = true) :
    ((osGet env "POD_NAME" = none ∨ osGet env "POD_NAME" = some "unknown") →
      K8sClient.get_pod_info c w env =
        { self := c
          resp := JVal.obj
            [("pod_name", JVal.str "unknown"),
             ("namespace", JVal.str (get_env_var env "POD_NAMESPACE" "default")),
             ("status", JVal.str "Limited information available")]
          pod_lookups := [], version_queries := 0 }) ∧
    (∀ s, osGet env "POD_NAME" = some s → s ≠ "unknown" →
      (K8sClient.get_pod_info c w env).pod_lookups =
        [(s, get_env_var env "POD_NAMESPACE" "default")]) := by
  constructor
  · intro h
    have hn : get_env_var env "POD_NAME" "unknown" = "unknown" := by
      rcases h with h | h <;> simp [get_env_var, h]
    simp [K8sClient.get_pod_info, hrun, hn]
  · intro s hs hne
    have hn : get_env_var env "POD_NAME" "unknown" = s := by
      simp [get_env_var, hs]
    cases hr : w.read_namespaced_pod s (get_env_var env "POD_NAMESPACE" "default") <;>
      simp [K8sClient.get_pod_info, hrun, hn, hne, hr]

/-- Witness for C5 at concrete inputs: an enabled client with `POD_NAME`
unset gives the reduced payload with zero lookups; with
`POD_NAME=pod-1` exactly the lookup `("pod-1", "default")` happens. -/
theorem get_pod_info_unknown_reduced_witness :
    K8sClient.get_pod_info (K8sClient.init wOk) wOk [] =
      { self := K8sClient.init wOk
        resp := JVal.obj
          [("pod_name", JVal.str "unknown"),
           ("namespace", JVal.str "default"),
           ("status", JVal.str "Limited information available")]
        pod_lookups := [], version_queries := 0 } ∧
    (K8sClient.get_pod_info (K8sClient.init wOk) wOk [("POD_NAME", "pod-1")]).pod_lookups =
      [("pod-1", "default")] :=
  ⟨(get_pod_info_unknown_reduced (K8sClient.init wOk) wOk [] rfl).1 (Or.inl rfl),
   (get_pod_info_unknown_reduced (K8sClient.init wOk) wOk [("POD_NAME", "pod-1")] rfl).2
     "pod-1" rfl (by decide)⟩

/-- C6: an entry is in the `/api/info` `env_variables` map exactly when
it is an environment entry (unchanged) whose key is not
case-insensitively equal to one of `path`, `secret`, `token`,
`password`, `key`, `cert`; and the `/api/info` response carries exactly
that map under the `env_variables` key. -/
theorem info_env_variables_filter (wt : WebTest) (reqEnv : Env) (rt : RuntimeInfo)
    (k v : String) :
    (((k, v) ∈ infoEnvVariables reqEnv) ↔
      ((k, v) ∈ reqEnv ∧ sensitiveInfoKeys.contains (pyLower k) = false)) ∧
    ("env_variables",
      JVal.obj (List.map (fun kv => (kv.1, JVal.str kv.2)) (infoEnvVariables reqEnv)))
      ∈ (WebTest.info wt reqEnv rt).jsonEntries := by
  constructor
  · simp [infoEnvVariables, List.mem_filter]
  · simp [WebTest.info, Response.jsonEntries]

/-- Witness for C6 at concrete inputs: `HOME` survives the filter. -/
theorem info_env_variables_filter_witness :
    ("HOME", "/root") ∈ infoEnvVariables [("HOME", "/root")] :=
  (info_env_variables_filter (WebTest.init [] wFail "0.0.0.0" 8080)
      [("HOME", "/root")] rt0 "HOME" "/root").1.mpr ⟨by decide, by decide⟩

/-- C7 counterexample: with the environment containing exactly
`MY_SECRET_X=1`, the key `MY_SECRET_X` is present in the `/api/info`
`env_variables` map, refuting the claim that it is absent there: the
`/api/info` filter is an exact match against the six key names, and
`my_secret_x` is none of them. -/
theorem my_secret_x_in_info_cex :
    ("MY_SECRET_X", "1") ∈ infoEnvVariables [("MY_SECRET_X", "1")] := by
  decide

/-- C7 (amended): given an environment containing `MY_SECRET_X=1`, the
key `MY_SECRET_X` is absent from the startup-log snapshot (whose filter
matches `secret` as a substring of the lowercased key), but present,
with its value unchanged, in the `/api/info` `env_variables` map (whose
filter is an exact match). -/
theorem my_secret_x_redaction (env : Env) (h : ("MY_SECRET_X", "1") ∈ env) :
    (∀ v, ("MY_SECRET_X", v) ∉ main_env_vars env) ∧
    ("MY_SECRET_X", "1") ∈ infoEnvVariables env := by
  constructor
  · intro v hv
    rw [main_env_vars, List.mem_filter] at hv
    have hfalse :
        (!(sensitiveLogWords.any (fun s => strContainsSub (pyLower "MY_SECRET_X") s)))
          = false := by decide
    rw [hfalse] at hv
    exact Bool.false_ne_true hv.2
  · rw [infoEnvVariables, List.mem_filter]
    exact ⟨h, by decide⟩

/-- Witness for C7 (amended) at the concrete one-entry environment. -/
theorem my_secret_x_redaction_witness :
    (∀ v, ("MY_SECRET_X", v) ∉ main_env_vars [("MY_SECRET_X", "1")]) ∧
    ("MY_SECRET_X", "1") ∈ infoEnvVariables [("MY_SECRET_X", "1")] :=
  my_secret_x_redaction [("MY_SECRET_X", "1")] (by decide)

/-- C8 counterexample: the startup-log snapshot does not apply the same
filter as `/api/info`: on the environment containing exactly
`PATH=/usr/bin`, the startup snapshot keeps `PATH` (no sensitive word is
a substring of `path`) while `/api/info` drops it (`path` is in its
exact-match tuple). -/
theorem startup_info_filters_differ_cex :
    ("PATH", "/usr/bin") ∈ main_env_vars [("PATH", "/usr/bin")] ∧
    ("PATH", "/usr/bin") ∉ infoEnvVariables [("PATH", "/usr/bin")] := by
  decide

/-- C8 (amended): the startup-log snapshot contains exactly those
environment entries whose key does not contain any of `secret`,
`password`, `token`, `key`, `cert` as a case-insensitive substring —
which is not the `/api/info` filter (an exact match that also covers
`path`). -/
theorem startup_redaction_substring (env : Env) (k v : String) :
    ((k, v) ∈ main_env_vars env) ↔
      ((k, v) ∈ env ∧
        (sensitiveLogWords.any (fun s => strContainsSub (pyLower k) s)) = false) := by
  rw [main_env_vars, List.mem_filter]
  simp

/-- Witness for C8 (amended) at concrete inputs: `HOST` survives the
startup redaction. -/
theorem startup_redaction_substring_witness :
    ("HOST", "0.0.0.0") ∈ main_env_vars [("HOST", "0.0.0.0")] :=
  (startup_redaction_substring [("HOST", "0.0.0.0")] "HOST" "0.0.0.0").mpr
    ⟨by decide, by decide⟩

/-- C9: `APP_NAME` and `ENVIRONMENT` are captured at `WebTest`
construction: `/api/status` and the root page are unchanged by any
request-time environment and report the construction-time values
(defaults `webtest`/`development`); by contrast `get_pod_info` reads
`POD_NAME`/`POD_NAMESPACE` from the request-time environment on every
call. -/
theorem construction_time_config
    (cenv renv renv' : Env) (w : K8sWorld) (host : String) (port : Int)
    (c : K8sClient) :
    (WebTest.status (WebTest.init cenv w host port) renv =
       WebTest.status (WebTest.init cenv w host port) renv') ∧
    (WebTest.index (WebTest.init cenv w host port) renv =
       WebTest.index (WebTest.init cenv w host port) renv') ∧
    (WebTest.status (WebTest.init cenv w host port) renv =
      { status := 200, content_type := "application/json"
        body := Body.json (JVal.obj
          [("status", JVal.str "running"),
           ("service", JVal.str (get_env_var cenv "APP_NAME" "webtest")),
           ("environment",
            JVal.str (get_env_var cenv "ENVIRONMENT" "development"))]) }) ∧
    (WebTest.index (WebTest.init cenv w host port) renv =
      { status := 200, content_type := "text/html"
        body := Body.html (indexHtml (get_env_var cenv "APP_NAME" "webtest")
                  (get_env_var cenv "ENVIRONMENT" "development")) }) ∧
    (c.running_in_k8s = true → get_env_var renv "POD_NAME" "unknown" = "unknown" →
      (K8sClient.get_pod_info c w renv).resp = JVal.obj
        [("pod_name", JVal.str "unknown"),
         ("namespace", JVal.str (get_env_var renv "POD_NAMESPACE" "default")),
         ("status", JVal.str "Limited information available")]) := by
  refine ⟨rfl, rfl, rfl, rfl, ?_⟩
  intro hrun hn
  simp [K8sClient.get_pod_info, hrun, hn]

/-- Witness for C9 at concrete inputs: with `APP_NAME=myapp` at
construction and a different `APP_NAME` at request time, `/api/status`
still reports `myapp`; and `get_pod_info` picks up the request-time
`POD_NAMESPACE`. -/
theorem construction_time_config_witness :
    (WebTest.status
        (WebTest.init [("APP_NAME", "myapp")] wOk "0.0.0.0" 8080)
        [("APP_NAME", "other")] =
      { status := 200, content_type := "application/json"
        body := Body.json (JVal.obj
          [("status", JVal.str "running"),
           ("service", JVal.str "myapp"),
           ("environment", JVal.str "development")]) }) ∧
    (K8sClient.get_pod_info (K8sClient.init wOk) wOk
        [("POD_NAMESPACE", "team-a")]).resp = JVal.obj
      [("pod_name", JVal.str "unknown"),
       ("namespace", JVal.str "team-a"),
       ("status", JVal.str "Limited information available")] :=
  ⟨(construction_time_config [("APP_NAME", "myapp")] [("APP_NAME", "other")] []
      wOk "0.0.0.0" 8080 (K8sClient.init wOk)).2.2.1,
   (construction_time_config [] [("POD_NAMESPACE", "team-a")] [] wOk "0.0.0.0" 8080
      (K8sClient.init wOk)).2.2.2.2 rfl rfl⟩

/-- C10: when `PORT` is set to a string that `int()` cannot parse, `main`
ends with the uncaught `ValueError` from the conversion — which happens
before and outside every `try` in `main` — and in particular not with
the logged `sys.exit(1)` used for import and server-start failures. -/
theorem port_int_uncaught (env : Env) (w : MainWorld) (s : String)
    (hs : osGet env "PORT" = some s) (hp : pyInt s = none) :
    main_entry env w = MainOutcome.valueError ∧
    main_entry env w ≠ MainOutcome.exitCode 1 := by
  have hport : mainPort env = none := by
    rw [mainPort, hs]
    exact hp
  rw [main_entry, hport]
  exact ⟨rfl, fun hcontra => MainOutcome.noConfusion hcontra⟩

/-- Witness for C10 at concrete inputs: `PORT=abc`. -/
theorem port_int_uncaught_witness :
    main_entry [("PORT", "abc")] mw0 = MainOutcome.valueError ∧
    main_entry [("PORT", "abc")] mw0 ≠ MainOutcome.exitCode 1 :=
  port_int_uncaught [("PORT", "abc")] mw0 "abc" (by decide) (by decide)
